import Mathlib

/-!
# Verification of the filament material-package toolkit core

Shallow embedding of the ubershader-archive matcher (`ArchiveCache.cpp`),
the archive writer/reader (`ReadableArchive.cpp`), and the package
rewriter (`ShaderReplacer.cpp`), together with theorems settling the
frozen claims about them.

Machine integers are modelled as `Nat`; byte buffers as `List Nat`;
C strings as Lean `String`s (no interior NUL bytes, as produced by the
spec-file parser and flag-name tables).
-/

namespace Filament

/-! ## Data model shared by the archive components

The enum types mirror `filament::Shading`, `filament::BlendingMode` and
`filament::uberz::ArchiveFeature`.  The sentinel values
`INVALID_SHADING_MODEL` / `INVALID_BLENDING` (0xFF casts in the source)
are modelled as dedicated `INVALID` constructors; only equality tests on
these values occur in the matcher. -/

inductive Shading where
  | UNLIT
  | LIT
  | SUBSURFACE
  | CLOTH
  | SPECULAR_GLOSSINESS
  | INVALID
  deriving DecidableEq, Repr

inductive BlendingMode where
  | OPAQUE
  | TRANSPARENT
  | ADD
  | MASKED
  | FADE
  | MULTIPLY
  | SCREEN
  | INVALID
  deriving DecidableEq, Repr

inductive ArchiveFeature where
  | UNSUPPORTED
  | OPTIONAL
  | REQUIRED
  deriving DecidableEq, Repr

/-- One `ArchiveFlag` as seen by the matcher after relocation:
a C-string name and a feature value. -/
structure ArchiveFlag where
  name : String
  value : ArchiveFeature
  deriving DecidableEq, Repr

/-- One `ArchiveSpec` as seen by the matcher: shading model, blending
mode and the flag list (`flags[0 .. flagsCount)`).  The embedded package
bytes are irrelevant to suitability and omitted here. -/
structure ArchiveSpec where
  shadingModel : Shading
  blendingMode : BlendingMode
  flags : List ArchiveFlag
  deriving DecidableEq, Repr

/-- `ArchiveRequirements`: the mesh's shading model, blending mode and
feature map (`robin_map<CString, bool>`, modelled as an association list
with unique keys; lookup finds the first binding). -/
structure ArchiveRequirements where
  shadingModel : Shading
  blendingMode : BlendingMode
  features : List (String × Bool)
  deriving DecidableEq, Repr

/-! ## The matcher (`ArchiveCache::getMaterial`) -/

/-- `strncmp(a, b, n) == 0` for NUL-terminated byte strings, modelled on
the character lists (list end = terminating NUL).  Comparison stops at
`n` characters or at the first NUL / mismatch, exactly like `strncmp`. -/
def strncmpIsZero : List Char → List Char → Nat → Bool
  | _, _, 0 => true
  | [], [], _ + 1 => true
  | [], _ :: _, _ + 1 => false
  | _ :: _, [], _ + 1 => false
  | a :: as, b :: bs, n + 1 => if a = b then strncmpIsZero as bs n else false

/-- `static bool strIsEqual(const CString& a, const char* b)` from
`ArchiveCache.cpp`: `strncmp(a.c_str(), b, a.size()) == 0`. -/
def strIsEqual (a b : String) : Bool :=
  strncmpIsZero a.data b.data a.data.length

/-- The inner flag-scan of the coverage check in `getMaterial`: walk
`spec.flags` in order; at the first flag whose name matches
(`strIsEqual`), the loop breaks and `found` is `flag.value != UNSUPPORTED`;
if no flag matches, `found` stays `false`. -/
def coverageLoop (meshRequirement : String) : List ArchiveFlag → Bool
  | [] => false
  | flag :: rest =>
    if strIsEqual meshRequirement flag.name then
      flag.value ≠ ArchiveFeature.UNSUPPORTED
    else
      coverageLoop meshRequirement rest

/-- The outer loop over `reqs.features`: every feature mapped to `true`
must be found by `coverageLoop` (features mapped to `false` are skipped
with `continue`). -/
def featuresCovered (features : List (String × Bool)) (flags : List ArchiveFlag) : Bool :=
  features.all fun req => if req.2 = false then true else coverageLoop req.1 flags

/-- Exact-name lookup in the requirements map
(`reqs.features.find(CString(flag.name))`). -/
def lookupFeature (features : List (String × Bool)) (name : String) : Option Bool :=
  (features.find? fun p => p.1 = name).map (·.2)

/-- The REQUIRED-satisfaction loop of `getMaterial`: every spec flag with
value `REQUIRED` must be mapped to `true` in the requirements, otherwise
the spec is unsuitable. -/
def requiredSatisfied (features : List (String × Bool)) (flags : List ArchiveFlag) : Bool :=
  flags.all fun flag =>
    if flag.value = ArchiveFeature.REQUIRED then
      match lookupFeature features flag.name with
      | some true => true
      | _ => false
    else true

/-- `ArchiveCache::getMaterial`, modelled as returning the winning spec
(the source builds and caches a `Material` from `spec.package`; `none`
models the `nullptr` / `NoMatch` result).  The structure mirrors the
source loop: the two `continue`s for blending/shading mismatch, then the
coverage loop, then the REQUIRED loop guarded by `specIsSuitable`. -/
def getMaterial (reqs : ArchiveRequirements) : List ArchiveSpec → Option ArchiveSpec
  | [] => none
  | spec :: rest =>
    if spec.blendingMode ≠ BlendingMode.INVALID ∧ spec.blendingMode ≠ reqs.blendingMode then
      getMaterial reqs rest
    else if spec.shadingModel ≠ Shading.INVALID ∧ spec.shadingModel ≠ reqs.shadingModel then
      getMaterial reqs rest
    else
      let specIsSuitable := featuresCovered reqs.features spec.flags
      let specIsSuitable := specIsSuitable && requiredSatisfied reqs.features spec.flags
      if specIsSuitable then some spec else getMaterial reqs rest

/-- The four suitability conditions of §4.9, as one predicate:
blending INVALID-or-equal, shading INVALID-or-equal, coverage of the
requested features, satisfaction of REQUIRED flags. -/
def specSuitable (reqs : ArchiveRequirements) (spec : ArchiveSpec) : Bool :=
  (spec.blendingMode = BlendingMode.INVALID ∨ spec.blendingMode = reqs.blendingMode)
  && (spec.shadingModel = Shading.INVALID ∨ spec.shadingModel = reqs.shadingModel)
  && featuresCovered reqs.features spec.flags
  && requiredSatisfied reqs.features spec.flags

/-- First flag in scan order whose name matches the requested feature
name under `strIsEqual` — the flag the source's coverage scan stops at. -/
def findFirstMatch (meshRequirement : String) : List ArchiveFlag → Option ArchiveFlag
  | [] => none
  | flag :: rest =>
    if strIsEqual meshRequirement flag.name then some flag
    else findFirstMatch meshRequirement rest

/-! ## Archive writer (`WritableArchive::serialize`) and reader
(`convertOffsetsToPointers`)

Struct sizes come from the `static_assert`s in `ReadableArchive.cpp`:
`sizeof(ReadableArchive) == 4 + 4 + 8 + 8`,
`sizeof(ArchiveSpec) == 4 + 4 + 8 + 8 + 8 + 8`,
`sizeof(ArchiveFlag) == 8 + 8`.
The field widths follow those decompositions: a `u32` magic, `u32`
version, `u64` specs count and `u64` specs offset (the offset sharing
its 8 bytes with the relocated pointer), etc.  All integers are stored
little-endian. -/

def sizeofReadableArchive : Nat := 4 + 4 + 8 + 8

def sizeofArchiveSpec : Nat := 4 + 4 + 8 + 8 + 8 + 8

def sizeofArchiveFlag : Nat := 8 + 8

/-- The multi-character literal `'UBER'` used as the archive magic:
`('U' << 24) + ('B' << 16) + ('E' << 8) + 'R'`. -/
def magicUBER : Nat := 0x55424552

/-- One accumulated material of `WritableArchive`: name, package bytes,
blending/shading (INVALID when the spec file did not set them) and the
parsed feature flags in map order. -/
structure WMaterial where
  name : String
  package : List Nat
  blendingMode : BlendingMode
  shadingModel : Shading
  flags : List (String × ArchiveFeature)
  deriving DecidableEq, Repr

/-- The serialized `ReadableArchive` header record. -/
structure ArchiveHeader where
  magic : Nat
  version : Nat
  specsCount : Nat
  specsOffset : Nat
  deriving DecidableEq, Repr

/-- A serialized `ArchiveSpec` record (offsets absolute from base). -/
structure ArchiveSpecRec where
  shadingModel : Shading
  blendingMode : BlendingMode
  flagsCount : Nat
  flagsOffset : Nat
  packageByteCount : Nat
  packageOffset : Nat
  deriving DecidableEq, Repr

/-- A serialized `ArchiveFlag` record: `(name_offset: u64, value: u64)`. -/
structure ArchiveFlagRec where
  nameOffset : Nat
  value : ArchiveFeature
  deriving DecidableEq, Repr

/-- Total number of flags over all materials (the first prepass loop of
`serialize`). -/
def totalFlags (mats : List WMaterial) : Nat :=
  mats.foldl (fun acc mat => acc + mat.flags.length) 0

/-- Total byte count of the NUL-terminated flag-name region. -/
def totalNameBytes (mats : List WMaterial) : Nat :=
  mats.foldl (fun acc mat =>
    mat.flags.foldl (fun a p => a + p.1.length + 1) acc) 0

/-- `flaglistOffset` in `serialize`: header plus all spec records. -/
def flaglistOffset (mats : List WMaterial) : Nat :=
  sizeofReadableArchive + mats.length * sizeofArchiveSpec

/-- `nameOffset` in `serialize`: start of the flag-name byte region. -/
def nameRegionOffset (mats : List WMaterial) : Nat :=
  flaglistOffset mats + totalFlags mats * sizeofArchiveFlag

/-- `filamatOffset` in `serialize`: start of the package payload region. -/
def filamatRegionOffset (mats : List WMaterial) : Nat :=
  nameRegionOffset mats + totalNameBytes mats

/-- The header filled by `serialize`: `magic='UBER', version=0,
specsCount, specsOffset=sizeof(ReadableArchive)`. -/
def archiveHeader (mats : List WMaterial) : ArchiveHeader :=
  { magic := magicUBER
    version := 0
    specsCount := mats.length
    specsOffset := sizeofReadableArchive }

/-- The spec-record loop of `serialize`: `flagsOffset` advances by
`sizeof(ArchiveFlag)` per already-written flag, `packageOffset` by the
preceding package sizes. -/
def buildSpecs (flaglistOff : Nat) : List WMaterial → Nat → Nat → List ArchiveSpecRec
  | [], _, _ => []
  | mat :: rest, filamatOff, flagCount =>
    { shadingModel := mat.shadingModel
      blendingMode := mat.blendingMode
      flagsCount := mat.flags.length
      flagsOffset := flaglistOff + flagCount * sizeofArchiveFlag
      packageByteCount := mat.package.length
      packageOffset := filamatOff } ::
    buildSpecs flaglistOff rest (filamatOff + mat.package.length)
      (flagCount + mat.flags.length)

/-- The flag-record loop for one material: `nameOffset` advances by
`name.size() + 1` per flag. -/
def buildFlagsForMat (nameBase : Nat) :
    List (String × ArchiveFeature) → Nat → List ArchiveFlagRec × Nat
  | [], charCount => ([], charCount)
  | (n, v) :: rest, charCount =>
    let (fs, charCount') := buildFlagsForMat nameBase rest (charCount + n.length + 1)
    ({ nameOffset := nameBase + charCount, value := v } :: fs, charCount')

/-- The flag-record loop of `serialize` over all materials. -/
def buildFlags (nameBase : Nat) : List WMaterial → Nat → List ArchiveFlagRec
  | [], _ => []
  | mat :: rest, charCount =>
    let (fs, charCount') := buildFlagsForMat nameBase mat.flags charCount
    fs ++ buildFlags nameBase rest charCount'

/-- Little-endian encoding of a 32-bit value. -/
def u32le (v : Nat) : List Nat :=
  [v % 256, v / 256 % 256, v / 65536 % 256, v / 16777216 % 256]

/-- Little-endian encoding of a 64-bit value. -/
def u64le (v : Nat) : List Nat :=
  u32le v ++ u32le (v / 4294967296)

/-- Byte encoding of a NUL-terminated string. -/
def strBytes (s : String) : List Nat :=
  s.data.map Char.toNat ++ [0]

/-- Numeric value of a `Shading` as stored in `ArchiveSpec`
(`filament::Shading` enum order; `INVALID_SHADING_MODEL` is the 0xFF
cast). -/
def shadingToNat : Shading → Nat
  | Shading.UNLIT => 0
  | Shading.LIT => 1
  | Shading.SUBSURFACE => 2
  | Shading.CLOTH => 3
  | Shading.SPECULAR_GLOSSINESS => 4
  | Shading.INVALID => 0xFF

/-- Numeric value of a `BlendingMode` as stored in `ArchiveSpec`
(`filament::BlendingMode` enum order; `INVALID_BLENDING` is the 0xFF
cast). -/
def blendingToNat : BlendingMode → Nat
  | BlendingMode.OPAQUE => 0
  | BlendingMode.TRANSPARENT => 1
  | BlendingMode.ADD => 2
  | BlendingMode.MASKED => 3
  | BlendingMode.FADE => 4
  | BlendingMode.MULTIPLY => 5
  | BlendingMode.SCREEN => 6
  | BlendingMode.INVALID => 0xFF

/-- Numeric value of an `ArchiveFeature` as stored in `ArchiveFlag`
(`u64` field; enum order). -/
def featureToNat : ArchiveFeature → Nat
  | ArchiveFeature.UNSUPPORTED => 0
  | ArchiveFeature.OPTIONAL => 1
  | ArchiveFeature.REQUIRED => 2

/-- Byte layout of the `ReadableArchive` header (24 bytes). -/
def headerBytes (h : ArchiveHeader) : List Nat :=
  u32le h.magic ++ u32le h.version ++ u64le h.specsCount ++ u64le h.specsOffset

/-- Byte layout of one `ArchiveSpec` record (40 bytes). -/
def specBytes (s : ArchiveSpecRec) : List Nat :=
  u32le (shadingToNat s.shadingModel) ++ u32le (blendingToNat s.blendingMode) ++
    u64le s.flagsCount ++ u64le s.flagsOffset ++
    u64le s.packageByteCount ++ u64le s.packageOffset

/-- Byte layout of one `ArchiveFlag` record (16 bytes). -/
def flagBytes (f : ArchiveFlagRec) : List Nat :=
  u64le f.nameOffset ++ u64le (featureToNat f.value)

/-- The flag-name byte region: names concatenated NUL-terminated in the
order their flags were written. -/
def nameRegionBytes (mats : List WMaterial) : List Nat :=
  (mats.map fun mat => ((mat.flags.map fun p => strBytes p.1).flatten)).flatten

/-- `WritableArchive::serialize`: the full pre-compression buffer, the
five `memcpy` sections in order  — header, spec records, flag records,
flag-name strings, package payloads.  (The subsequent zstd compression
is the external codec and not modelled.) -/
def serializeBytes (mats : List WMaterial) : List Nat :=
  headerBytes (archiveHeader mats) ++
    ((buildSpecs (flaglistOffset mats) mats (filamatRegionOffset mats) 0).map specBytes).flatten ++
    ((buildFlags (nameRegionOffset mats) mats 0).map flagBytes).flatten ++
    nameRegionBytes mats ++
    (mats.map (·.package)).flatten

/-- Decode a little-endian 32-bit value at byte offset `off`
(out-of-range bytes read as 0). -/
def extractU32 (bytes : List Nat) (off : Nat) : Nat :=
  bytes.getD off 0 + 256 * bytes.getD (off + 1) 0 +
    65536 * bytes.getD (off + 2) 0 + 16777216 * bytes.getD (off + 3) 0

/-- Decode a little-endian 64-bit value at byte offset `off`. -/
def extractU64 (bytes : List Nat) (off : Nat) : Nat :=
  extractU32 bytes off + 4294967296 * extractU32 bytes (off + 4)

/-- The alignment assertions of `convertOffsetsToPointers`:
`specsOffset % 8 == 0` and, for every spec, `flagsOffset % 8 == 0`. -/
def convertOffsetsChecks (specsOffset : Nat) (specs : List ArchiveSpecRec) : Bool :=
  specsOffset % 8 == 0 && specs.all fun s => s.flagsOffset % 8 == 0

/-! ## The package rewriter (`ShaderReplacer.cpp`)

A parsed chunk is `(tag, payload)`; the `u32` size field of the stream
equals the payload length.  The rewriter inputs are modelled in parsed
form: the chunk list of the container together with the string-line /
record contents that the `ShaderIndex` / `BlobIndex` constructors read
out of the dictionary and material chunks. -/

/-- One chunk of the material package stream. -/
structure Chunk where
  tag : Nat
  content : List Nat
  deriving DecidableEq, Repr

/-- The tail of the chunk-clone loop of `replaceShaderSource` /
`replaceSpirv`.  The C++ loop is `while (sstream) { read type; read
size; read content; ... }`: after the final chunk is consumed the
stream is not yet in a fail state, so the body runs one extra time; all
three reads fail, leaving `type`, `size` and `content` holding the
previous chunk's values, and that stale chunk is written a second time
unless its tag is filtered.  `prev` is the chunk read by the previous
iteration. -/
def cloneChunksLoop (dictTag matTag : Nat) : List Chunk → Chunk → List Chunk
  | [], prev =>
    if prev.tag = dictTag ∨ prev.tag = matTag then [] else [prev]
  | c :: rest, _ =>
    (if c.tag = dictTag ∨ c.tag = matTag then [] else [c]) ++
      cloneChunksLoop dictTag matTag rest c

/-- The chunk-clone pass: copy every chunk whose tag is neither
`dictTag` nor `matTag`, plus the trailing stale iteration.  (The empty
stream never occurs: the caller requires both the dictionary and the
material chunk to be present.) -/
def cloneChunks (dictTag matTag : Nat) : List Chunk → List Chunk
  | [] => []
  | c :: rest =>
    (if c.tag = dictTag ∨ c.tag = matTag then [] else [c]) ++
      cloneChunksLoop dictTag matTag rest c

/-- Little-endian encoding of a 16-bit value. -/
def u16le (v : Nat) : List Nat := [v % 256, v / 256 % 256]

namespace ShaderIndex

/-- `ShaderIndex::ShaderRecord`: one text-shader record. -/
structure TextRecord where
  model : Nat
  variant : Nat
  stage : Nat
  offset : Nat
  lineIndices : List Nat
  decodedShaderText : String
  stringLength : Nat
  deriving DecidableEq, Repr, Inhabited

/-- The line splitter inside `ShaderIndex::replaceShader`'s re-encode
loop: scan the text character by character, emitting a line at each
`'\n'`; a final segment without trailing newline is also emitted; empty
text yields no lines.  (`acc` holds the current line reversed.  The
source's `pos + len > length` consistency check cannot trigger, since
the scan never runs past the terminator.) -/
def splitLinesAux : List Char → List Char → List String
  | [], [] => []
  | [], acc => [String.mk acc.reverse]
  | c :: rest, acc =>
    if c = '\n' then String.mk acc.reverse :: splitLinesAux rest []
    else splitLinesAux rest (c :: acc)

/-- Split decoded shader text on `'\n'`, ignoring a trailing newline. -/
def splitLines (cs : List Char) : List String := splitLinesAux cs []

/-- `std::map<string_view, uint16_t>::find`, on the association list. -/
def tableFind (table : List (String × Nat)) (s : String) : Option Nat :=
  (table.find? fun p => p.1 = s).map (·.2)

/-- `table.emplace(s, i)`: insert only if the key is absent. -/
def tableEmplace (table : List (String × Nat)) (s : String) (i : Nat) :
    List (String × Nat) :=
  if (tableFind table s).isSome then table else table ++ [(s, i)]

/-- The table-seeding loop: `table.emplace(mStringLines[i], i)` for
`i = 0, 1, ...`. -/
def buildTableLoop : List String → Nat → List (String × Nat) → List (String × Nat)
  | [], _, table => table
  | s :: rest, i, table => buildTableLoop rest (i + 1) (tableEmplace table s i)

/-- Seed the `string → index` table from the current dictionary. -/
def buildTable (stringLines : List String) : List (String × Nat) :=
  buildTableLoop stringLines 0 []

/-- Phase 1 of `ShaderIndex::replaceShader` for one record: deref the
line indices into a monolithic string (`line + '\n'` per index); `none`
on an out-of-range index ("Internal chunk decoding error"). -/
def decodeText (stringLines : List String) (r : TextRecord) : Option String :=
  if r.lineIndices.all fun i => i < stringLines.length then
    some (r.lineIndices.foldl (fun acc i => acc ++ stringLines.getD i "" ++ "\n") "")
  else none

/-- Phase 1 over all records, with the source's early return: on a bad
index the remaining records (including the offender) keep their old
state and the error is reported. -/
def decodePhase (stringLines : List String) :
    List TextRecord → List TextRecord × Option String
  | [] => ([], none)
  | r :: rest =>
    match decodeText stringLines r with
    | none => (r :: rest, some "Internal chunk decoding error.")
    | some t =>
      let p := decodePhase stringLines rest
      ({ r with decodedShaderText := t } :: p.1, p.2)

/-- Phase 2: replace the decoded text of the first record matching
`(model, variant, stage)` (the loop breaks after the first match); if no
record matches, nothing changes. -/
def replaceMatching (records : List TextRecord) (m v s : Nat) (src : String) :
    List TextRecord :=
  match records with
  | [] => []
  | r :: rest =>
    if r.model = m ∧ r.variant = v ∧ r.stage = s then
      { r with decodedShaderText := src } :: rest
    else r :: replaceMatching rest m v s src

/-- Mutable state of the re-encode pass: the (growing) dictionary, the
lookup table and the running tail offset. -/
structure EncodeState where
  stringLines : List String
  table : List (String × Nat)
  offset : Nat
  deriving DecidableEq, Repr

/-- Re-encode the lines of one record: look each line up, inserting
fresh lines at index `mStringLines.size()`; an insert that would need an
index above `UINT16_MAX` stops the encode with the too-many-codelines
error (the source's early `return`, leaving the already-pushed indices
in place). -/
def encodeLines (st : EncodeState) : List String → EncodeState × List Nat × Option String
  | [] => (st, [], none)
  | line :: rest =>
    match tableFind st.table line with
    | some i =>
      let r := encodeLines st rest
      (r.1, i :: r.2.1, r.2.2)
    | none =>
      let index := st.stringLines.length
      if index > 65535 then (st, [], some "too many unique codelines")
      else
        let st' : EncodeState :=
          { st with
            stringLines := st.stringLines ++ [line]
            table := tableEmplace st.table line index }
        let r := encodeLines st' rest
        (r.1, index :: r.2.1, r.2.2)

/-- Phase 3 record loop: for each record set `stringLength` and
`offset`, re-encode its lines, and advance the offset by the tail size;
on an encode error the remaining records keep their previous state. -/
def encodeRecords (st : EncodeState) :
    List TextRecord → EncodeState × List TextRecord × Option String
  | [] => (st, [], none)
  | r :: rest =>
    let text := r.decodedShaderText
    let st0 : EncodeState := { st with offset := st.offset + 4 + 4 }
    let e1 := encodeLines st0 (splitLines text.data)
    let r' : TextRecord :=
      { r with stringLength := text.length + 1, offset := st.offset, lineIndices := e1.2.1 }
    match e1.2.2 with
    | some msg => (e1.1, r' :: rest, some msg)
    | none =>
      let st2 : EncodeState := { e1.1 with offset := e1.1.offset + 2 * e1.2.1.length }
      let e2 := encodeRecords st2 rest
      (e2.1, r' :: e2.2.1, e2.2.2)

/-- `ShaderIndex::replaceShader`: decode all records, replace the one
matching record's text, then re-encode every record against the table
seeded from the current dictionary.  Returns the records, the final
string dictionary, and the error (if any) that the source merely logs.
The fixed-entry region is `8 + 7 * record_count` bytes, so tail offsets
start there. -/
def replaceShader (records : List TextRecord) (stringLines : List String)
    (m v s : Nat) (src : String) : List TextRecord × List String × Option String :=
  let d := decodePhase stringLines records
  match d.2 with
  | some err => (d.1, stringLines, some err)
  | none =>
    let recs2 := replaceMatching d.1 m v s src
    let e := encodeRecords
      ⟨stringLines, buildTable stringLines, 8 + records.length * 7⟩ recs2
    (e.2.1, e.1.stringLines, e.2.2)

/-- `ShaderIndex::writeChunks`: emit the updated `DictionaryText` chunk
(count + NUL-terminated lines) and then the material chunk (record
count, fixed entries, variable tails). -/
def writeChunks (dictTag matTag : Nat) (stringLines : List String)
    (records : List TextRecord) : List Chunk :=
  [⟨dictTag, u32le stringLines.length ++ (stringLines.map strBytes).flatten⟩,
   ⟨matTag,
    u64le records.length ++
      (records.map fun r =>
        [r.model % 256, r.variant % 256, r.stage % 256] ++ u32le r.offset).flatten ++
      (records.map fun r =>
        u32le r.stringLength ++ u32le r.lineIndices.length ++
          (r.lineIndices.map u16le).flatten).flatten⟩]

end ShaderIndex

/-- `ShaderReplacer::replaceShaderSource` (text backends): fail when the
material or dictionary chunk is missing; otherwise clone all other
chunks, then (unless the shader index is empty) apply the single
replacement and append the two re-emitted chunks.  `stringLines` and
`records` are the parsed contents of the dictionary and material chunks
(what the `ShaderIndex` constructor reads); `none` models `return
false` with no edited package. -/
def replaceShaderSource (dictTag matTag : Nat) (chunks : List Chunk)
    (stringLines : List String) (records : List ShaderIndex.TextRecord)
    (m v s : Nat) (src : String) : Option (List Chunk) :=
  if (chunks.any fun c => c.tag = matTag) && (chunks.any fun c => c.tag = dictTag) then
    let cloned := cloneChunks dictTag matTag chunks
    if stringLines.isEmpty && records.isEmpty then some cloned
    else
      let r := ShaderIndex.replaceShader records stringLines m v s src
      some (cloned ++ ShaderIndex.writeChunks dictTag matTag r.2.1 r.1)
  else none

namespace BlobIndex

/-- `BlobIndex::ShaderRecord`: one SPIR-V record. -/
structure SpirvRecord where
  model : Nat
  variant : Nat
  stage : Nat
  blobIndex : Nat
  deriving DecidableEq, Repr, Inhabited

/-- `BlobIndex::replaceShader`: find the first record matching
`(model, variant, stage)` and overwrite the blob it points to
**in place** (`blob.resize; memcpy`), returning the updated blob list;
records are not modified.  When no record matches, the source only logs
"Unable to replace shader." and the blobs stay unchanged. -/
def replaceShader : List SpirvRecord → List (List Nat) → Nat → Nat → Nat →
    List Nat → List (List Nat)
  | [], dataBlobs, _, _, _, _ => dataBlobs
  | r :: rest, dataBlobs, m, v, s, src =>
    if r.model = m ∧ r.variant = v ∧ r.stage = s then dataBlobs.set r.blobIndex src
    else replaceShader rest dataBlobs m v s src

/-- Modelled from the spec: `filamat::BlobDictionary::addBlob`, whose
source is not under src/ — §4.2: "`add(bytes) → index`. If `bytes`
byte-equals an existing blob, returns the existing index; otherwise
appends" (content-addressed dedup). -/
def addBlob (blobs : List (List Nat)) (b : List Nat) : List (List Nat) × Nat :=
  match blobs.findIdx? fun x => x = b with
  | some i => (blobs, i)
  | none => (blobs ++ [b], blobs.length)

/-- The consolidation loop at the start of `BlobIndex::writeChunks`:
for each record, take its (possibly mutated) blob from `mDataBlobs`, add
it to a fresh dictionary with dedup, and rewrite `record.blobIndex`. -/
def consolidateLoop (dataBlobs : List (List Nat)) :
    List SpirvRecord → List (List Nat) → List SpirvRecord × List (List Nat)
  | [], blobs => ([], blobs)
  | r :: rest, blobs =>
    let a := addBlob blobs (dataBlobs.getD r.blobIndex [])
    let p := consolidateLoop dataBlobs rest a.1
    ({ r with blobIndex := a.2 } :: p.1, p.2)

/-- The record/dictionary content written out by `BlobIndex::writeChunks`
(the subsequent SMOL-V compression and 8-byte alignment padding concern
only the byte envelope of the dictionary chunk, not which blob each
record references). -/
def writeChunksBlobs (records : List SpirvRecord) (dataBlobs : List (List Nat)) :
    List SpirvRecord × List (List Nat) :=
  consolidateLoop dataBlobs records []

end BlobIndex

/-- `ShaderReplacer::replaceSpirv` (Vulkan backend), as dispatched by
`replaceShaderSource` after its chunk-presence checks: the replacement
source is first compiled (glslang parse, link, `GlslangToSpv`) — a
parse/link failure returns `false` with no output *before any record
lookup*, independent of the key; otherwise every other chunk is cloned
and (unless the blob index is empty) the in-place blob replacement and
the consolidation pass of `writeChunks` are applied.  `compiled` is the
result of the external compiler (out of scope per §1); the output is
the cloned passthrough chunks plus the record/blob content of the two
re-emitted chunks. -/
def replaceSpirv (dictTag matTag : Nat) (chunks : List Chunk)
    (records : List BlobIndex.SpirvRecord) (dataBlobs : List (List Nat))
    (m v s : Nat) (compiled : Option (List Nat)) :
    Option (List Chunk × List BlobIndex.SpirvRecord × List (List Nat)) :=
  if (chunks.any fun c => c.tag = matTag) && (chunks.any fun c => c.tag = dictTag) then
    match compiled with
    | none => none
    | some spirv =>
      let cloned := cloneChunks dictTag matTag chunks
      if dataBlobs.isEmpty && records.isEmpty then some (cloned, records, dataBlobs)
      else
        let blobs' := BlobIndex.replaceShader records dataBlobs m v s spirv
        let w := BlobIndex.writeChunksBlobs records blobs'
        some (cloned, w.1, w.2)
  else none

/-! ### Helper lemmas about the matcher -/

/-- One step of the matcher loop equals a single suitability test. -/
theorem getMaterial_cons (reqs : ArchiveRequirements) (spec : ArchiveSpec)
    (rest : List ArchiveSpec) :
    getMaterial reqs (spec :: rest) =
      if specSuitable reqs spec then some spec else getMaterial reqs rest := by
  by_cases hb : spec.blendingMode ≠ BlendingMode.INVALID ∧ spec.blendingMode ≠ reqs.blendingMode
  · have hs : specSuitable reqs spec = false := by
      simp [specSuitable, hb.1, hb.2]
    simp [getMaterial, hb, hs]
  · by_cases hm : spec.shadingModel ≠ Shading.INVALID ∧ spec.shadingModel ≠ reqs.shadingModel
    · have hs : specSuitable reqs spec = false := by
        simp [specSuitable, hm.1, hm.2]
      simp [getMaterial, hb, hm, hs]
    · have hb' : spec.blendingMode = BlendingMode.INVALID ∨ spec.blendingMode = reqs.blendingMode := by
        by_contra h
        push_neg at h
        exact hb ⟨h.1, h.2⟩
      have hm' : spec.shadingModel = Shading.INVALID ∨ spec.shadingModel = reqs.shadingModel := by
        by_contra h
        push_neg at h
        exact hm ⟨h.1, h.2⟩
      simp [getMaterial, hb, hm, specSuitable, hb', hm']

/-- The matcher loop computes exactly "first spec satisfying the
suitability predicate, in stored order". -/
theorem getMaterial_eq_find (reqs : ArchiveRequirements) (specs : List ArchiveSpec) :
    getMaterial reqs specs = specs.find? (specSuitable reqs) := by
  induction specs with
  | nil => rfl
  | cons spec rest ih =>
    rw [getMaterial_cons, List.find?]
    cases h : specSuitable reqs spec <;> simp [h, ih]

/-- The coverage scan returns the verdict of the first matching flag. -/
theorem coverageLoop_of_findFirstMatch (name : String) (flags : List ArchiveFlag)
    (flag : ArchiveFlag) (h : findFirstMatch name flags = some flag) :
    coverageLoop name flags = decide (flag.value ≠ ArchiveFeature.UNSUPPORTED) := by
  induction flags with
  | nil => simp [findFirstMatch] at h
  | cons f rest ih =>
    by_cases hf : strIsEqual name f.name
    · rw [findFirstMatch, if_pos hf] at h
      cases h
      rw [coverageLoop, if_pos hf]
    · rw [findFirstMatch, if_neg hf] at h
      rw [coverageLoop, if_neg hf]
      exact ih h

/-- If no flag matches, the coverage scan fails. -/
theorem coverageLoop_of_no_match (name : String) (flags : List ArchiveFlag)
    (h : findFirstMatch name flags = none) :
    coverageLoop name flags = false := by
  induction flags with
  | nil => rfl
  | cons f rest ih =>
    by_cases hf : strIsEqual name f.name
    · rw [findFirstMatch, if_pos hf] at h
      cases h
    · rw [findFirstMatch, if_neg hf] at h
      rw [coverageLoop, if_neg hf]
      exact ih h

/-- `strncmp(a, b, |a|) == 0` is precisely "the char list `a` is a
prefix of the char list `b`" (for NUL-free strings). -/
theorem strncmpIsZero_isPrefix (as bs : List Char) :
    strncmpIsZero as bs as.length = as.isPrefixOf bs := by
  induction as generalizing bs with
  | nil => cases bs <;> rfl
  | cons a as ih =>
    cases bs with
    | nil => rfl
    | cons b bs =>
      rw [List.length_cons, strncmpIsZero, List.isPrefixOf]
      by_cases hab : a = b
      · simp [hab, ih]
      · simp [hab]

/-- Coverage failure for a `true`-mapped feature makes the spec
unsuitable. -/
theorem coverage_failure_rejects (reqs : ArchiveRequirements) (spec : ArchiveSpec)
    (name : String) (hreq : lookupFeature reqs.features name = some true)
    (hcov : coverageLoop name spec.flags = false) :
    specSuitable reqs spec = false := by
  have hmem : (name, true) ∈ reqs.features := by
    unfold lookupFeature at hreq
    cases hfind : reqs.features.find? fun p => p.1 = name with
    | none => rw [hfind] at hreq; simp at hreq
    | some p =>
      rw [hfind] at hreq
      simp at hreq
      have hp := List.find?_some hfind
      have hmem' := List.mem_of_find?_eq_some hfind
      have h1 : p.1 = name := by simpa using hp
      have : p = (name, true) := by
        cases p
        simp_all
      rw [this] at hmem'
      exact hmem'
  have hfc : featuresCovered reqs.features spec.flags = false := by
    apply Bool.eq_false_iff.mpr
    intro hall
    rw [featuresCovered, List.all_eq_true] at hall
    have h := hall (name, true) hmem
    simp only [Bool.true_eq_false, if_false] at h
    rw [hcov] at h
    exact absurd h (by simp)
  simp [specSuitable, hfc]

/-! ### Claim theorems about the matcher -/

/-- **C1.** For every loaded archive (spec list) and every requirement
set, `ArchiveCache::getMaterial` evaluates specs in stored archive order
and returns the (material of the) first spec satisfying all four
suitability conditions — blending INVALID-or-equal, shading
INVALID-or-equal, coverage of requested features, satisfaction of
REQUIRED flags; if no spec is suitable it returns NoMatch (`none`). -/
theorem claim_C1_matcher_first_suitable (reqs : ArchiveRequirements)
    (specs : List ArchiveSpec) :
    getMaterial reqs specs = specs.find? (specSuitable reqs) :=
  getMaterial_eq_find reqs specs

/-- **C6.** If a spec contains a flag with value REQUIRED whose name is
not mapped to `true` in the requirements (absent, or mapped to `false`),
the spec is rejected: it is unsuitable, and the matcher never returns
it for those requirements. -/
theorem claim_C6_required_flag_rejects (reqs : ArchiveRequirements) (spec : ArchiveSpec)
    (flag : ArchiveFlag) (hmem : flag ∈ spec.flags)
    (hval : flag.value = ArchiveFeature.REQUIRED)
    (hnot : lookupFeature reqs.features flag.name ≠ some true) :
    specSuitable reqs spec = false ∧
      ∀ specs : List ArchiveSpec, getMaterial reqs specs ≠ some spec := by
  have hrs : requiredSatisfied reqs.features spec.flags = false := by
    apply Bool.eq_false_iff.mpr
    intro hall
    rw [requiredSatisfied, List.all_eq_true] at hall
    have h := hall flag hmem
    rw [if_pos hval] at h
    cases hl : lookupFeature reqs.features flag.name with
    | none => rw [hl] at h; simp at h
    | some b =>
      cases b
      · rw [hl] at h; simp at h
      · exact hnot hl
  have hs : specSuitable reqs spec = false := by
    simp [specSuitable, hrs]
  refine ⟨hs, fun specs hsome => ?_⟩
  rw [getMaterial_eq_find] at hsome
  have := List.find?_some hsome
  rw [hs] at this
  exact absurd this (by simp)

/-- Witness for C6 at a concrete input: a spec whose only flag is
`REQUIRED "normalMap"` is rejected for requirements without that
feature. -/
theorem claim_C6_required_flag_rejects_witness :
    specSuitable
        ⟨Shading.LIT, BlendingMode.OPAQUE, []⟩
        ⟨Shading.LIT, BlendingMode.OPAQUE, [⟨"normalMap", ArchiveFeature.REQUIRED⟩]⟩
      = false ∧
      ∀ specs : List ArchiveSpec,
        getMaterial ⟨Shading.LIT, BlendingMode.OPAQUE, []⟩ specs ≠
          some ⟨Shading.LIT, BlendingMode.OPAQUE, [⟨"normalMap", ArchiveFeature.REQUIRED⟩]⟩ :=
  claim_C6_required_flag_rejects
    ⟨Shading.LIT, BlendingMode.OPAQUE, []⟩
    ⟨Shading.LIT, BlendingMode.OPAQUE, [⟨"normalMap", ArchiveFeature.REQUIRED⟩]⟩
    ⟨"normalMap", ArchiveFeature.REQUIRED⟩
    (by decide) (by decide) (by decide)

/-- **C4 counterexample.** The claim "if the requirements map a feature
name to `true` and the spec has no flag of that name, the spec is
rejected" fails: with requirements `{"normalMap" ↦ true}` and a spec
whose only flag is named `"normalMapped"` (OPTIONAL), the spec has no
flag named `"normalMap"` yet is accepted (the name comparison is a
prefix test). -/
theorem claim_C4_counterexample :
    lookupFeature [("normalMap", true)] "normalMap" = some true ∧
      (([⟨"normalMapped", ArchiveFeature.OPTIONAL⟩] : List ArchiveFlag).all
        fun f => f.name ≠ "normalMap") = true ∧
      specSuitable
          ⟨Shading.LIT, BlendingMode.OPAQUE, [("normalMap", true)]⟩
          ⟨Shading.INVALID, BlendingMode.INVALID, [⟨"normalMapped", ArchiveFeature.OPTIONAL⟩]⟩
        = true := by
  refine ⟨by decide, by decide, by decide⟩

/-- **C4 (amended).** With the name comparison being the source's prefix
test: for a feature mapped to `true` in the requirements, the first spec
flag whose name extends the requested name decides coverage — if there
is no such flag, or it is UNSUPPORTED, the spec is rejected; if it is
OPTIONAL or REQUIRED, the coverage condition holds for that feature. -/
theorem claim_C4_coverage_prefix_rule (reqs : ArchiveRequirements) (spec : ArchiveSpec)
    (name : String) (hreq : lookupFeature reqs.features name = some true) :
    (findFirstMatch name spec.flags = none → specSuitable reqs spec = false) ∧
      (∀ flag, findFirstMatch name spec.flags = some flag →
        flag.value = ArchiveFeature.UNSUPPORTED → specSuitable reqs spec = false) ∧
      (∀ flag, findFirstMatch name spec.flags = some flag →
        flag.value ≠ ArchiveFeature.UNSUPPORTED → coverageLoop name spec.flags = true) := by
  refine ⟨fun hnone => ?_, fun flag hsome hval => ?_, fun flag hsome hval => ?_⟩
  · exact coverage_failure_rejects reqs spec name hreq
      (coverageLoop_of_no_match name spec.flags hnone)
  · refine coverage_failure_rejects reqs spec name hreq ?_
    rw [coverageLoop_of_findFirstMatch name spec.flags flag hsome, hval]
    simp
  · rw [coverageLoop_of_findFirstMatch name spec.flags flag hsome]
    simp [hval]

/-- Witness for the amended C4 at concrete inputs: an UNSUPPORTED
`"normalMap"` flag rejects, an OPTIONAL one covers. -/
theorem claim_C4_coverage_prefix_rule_witness :
    specSuitable
        ⟨Shading.LIT, BlendingMode.OPAQUE, [("normalMap", true)]⟩
        ⟨Shading.INVALID, BlendingMode.INVALID, [⟨"normalMap", ArchiveFeature.UNSUPPORTED⟩]⟩
      = false ∧
      coverageLoop "normalMap" [⟨"normalMap", ArchiveFeature.OPTIONAL⟩] = true := by
  constructor
  · exact (claim_C4_coverage_prefix_rule
        ⟨Shading.LIT, BlendingMode.OPAQUE, [("normalMap", true)]⟩
        ⟨Shading.INVALID, BlendingMode.INVALID, [⟨"normalMap", ArchiveFeature.UNSUPPORTED⟩]⟩
        "normalMap" (by decide)).2.1
      ⟨"normalMap", ArchiveFeature.UNSUPPORTED⟩ (by decide) (by decide)
  · exact (claim_C4_coverage_prefix_rule
        ⟨Shading.LIT, BlendingMode.OPAQUE, [("normalMap", true)]⟩
        ⟨Shading.INVALID, BlendingMode.INVALID, [⟨"normalMap", ArchiveFeature.OPTIONAL⟩]⟩
        "normalMap" (by decide)).2.2
      ⟨"normalMap", ArchiveFeature.OPTIONAL⟩ (by decide) (by decide)

/-- **C10.** The matcher's coverage check compares a requested feature
name to a spec flag name by a prefix comparison limited to the requested
name's length (`strIsEqual` is exactly list-prefix), so a flag whose
name strictly extends the requested name matches; the first such
matching flag decides coverage by its value. -/
theorem claim_C10_prefix_comparison :
    (∀ a b : String, strIsEqual a b = a.data.isPrefixOf b.data) ∧
      (∀ (name : String) (flags : List ArchiveFlag) (flag : ArchiveFlag),
        findFirstMatch name flags = some flag →
          coverageLoop name flags = decide (flag.value ≠ ArchiveFeature.UNSUPPORTED)) :=
  ⟨fun a b => strncmpIsZero_isPrefix a.data b.data,
   fun name flags flag h => coverageLoop_of_findFirstMatch name flags flag h⟩

/-- Witness for C10 at a concrete input: request `"normalMap"` matches
the strictly longer flag name `"normalMapped"`, whose value decides
coverage. -/
theorem claim_C10_prefix_comparison_witness :
    strIsEqual "normalMap" "normalMapped" = true ∧
      coverageLoop "normalMap" [⟨"normalMapped", ArchiveFeature.UNSUPPORTED⟩] = false := by
  constructor
  · rw [claim_C10_prefix_comparison.1 "normalMap" "normalMapped"]
    decide
  · rw [claim_C10_prefix_comparison.2 "normalMap"
      [⟨"normalMapped", ArchiveFeature.UNSUPPORTED⟩]
      ⟨"normalMapped", ArchiveFeature.UNSUPPORTED⟩ (by decide)]
    decide

/-! ### Helper lemmas about the writer -/

theorem u32le_length (v : Nat) : (u32le v).length = 4 := rfl

theorem u64le_length (v : Nat) : (u64le v).length = 8 := rfl

theorem headerBytes_length (h : ArchiveHeader) : (headerBytes h).length = 24 := by
  simp [headerBytes, u64le, u32le]

/-- Reading a 32-bit little-endian field back gives the stored value. -/
theorem extractU32_u32le (v : Nat) (rest : List Nat) (hv : v < 4294967296) :
    extractU32 (u32le v ++ rest) 0 = v := by
  simp only [u32le, List.cons_append, List.nil_append, extractU32,
    List.getD_cons_zero, List.getD_cons_succ]
  omega

/-- Reading a 64-bit little-endian field back gives the stored value. -/
theorem extractU64_u64le (v : Nat) (rest : List Nat) (hv : v < 18446744073709551616) :
    extractU64 (u64le v ++ rest) 0 = v := by
  simp only [u64le, u32le, List.cons_append, List.nil_append, extractU64, extractU32,
    List.getD_cons_zero, List.getD_cons_succ]
  omega

/-- Skipping a prefix of known length shifts the read offset. -/
theorem extractU32_shift (p tail : List Nat) (off : Nat) :
    extractU32 (p ++ tail) (p.length + off) = extractU32 tail off := by
  unfold extractU32
  have e1 : p.length + off + 1 = p.length + (off + 1) := by omega
  have e2 : p.length + off + 2 = p.length + (off + 2) := by omega
  have e3 : p.length + off + 3 = p.length + (off + 3) := by omega
  rw [e1, e2, e3, List.getD_append_right _ _ _ _ (by omega),
    List.getD_append_right _ _ _ _ (by omega), List.getD_append_right _ _ _ _ (by omega),
    List.getD_append_right _ _ _ _ (by omega), Nat.add_sub_cancel_left,
    Nat.add_sub_cancel_left, Nat.add_sub_cancel_left, Nat.add_sub_cancel_left]

theorem extractU64_shift (p tail : List Nat) (off : Nat) :
    extractU64 (p ++ tail) (p.length + off) = extractU64 tail off := by
  unfold extractU64
  rw [extractU32_shift]
  have h : p.length + off + 4 = p.length + (off + 4) := by omega
  rw [h, extractU32_shift]

/-- Every `flagsOffset` produced by the spec-record loop is
`flaglistOff + k * 16` for some `k`. -/
theorem buildSpecs_flagsOffset_aligned (flaglistOff : Nat) (h8 : flaglistOff % 8 = 0) :
    ∀ (mats : List WMaterial) (filamatOff flagCount : Nat),
      ((buildSpecs flaglistOff mats filamatOff flagCount).all
        fun s => s.flagsOffset % 8 == 0) = true := by
  intro mats
  induction mats with
  | nil => intro _ _; rfl
  | cons mat rest ih =>
    intro filamatOff flagCount
    rw [buildSpecs, List.all_cons, ih]
    simp only [Bool.and_true, beq_iff_eq, sizeofArchiveFlag]
    omega

/-! ### Claim theorems about the writer -/

/-- **C8 counterexample.** The claim says the header is 32 bytes in
total, with `specs_offset` equal to the header size; but the serialized
buffer of a one-material archive stores `specs_offset = 24` (the actual
`sizeof(ReadableArchive)` per the source's `static_assert`), not 32, and
the header region is 24 bytes long. -/
theorem claim_C8_counterexample :
    extractU64
        (serializeBytes [⟨"A", [7], BlendingMode.OPAQUE, Shading.LIT,
          [("hasBaseColorMap", ArchiveFeature.REQUIRED)]⟩]) 16 = 24 ∧
      extractU64
        (serializeBytes [⟨"A", [7], BlendingMode.OPAQUE, Shading.LIT,
          [("hasBaseColorMap", ArchiveFeature.REQUIRED)]⟩]) 16 ≠ 32 ∧
      (headerBytes (archiveHeader [⟨"A", [7], BlendingMode.OPAQUE, Shading.LIT,
        [("hasBaseColorMap", ArchiveFeature.REQUIRED)]⟩])).length = 24 := by
  refine ⟨by decide, by decide, by decide⟩

/-- **C8 (amended).** For every archive serialized by the writer, the
pre-compression buffer begins with a header whose magic is `'UBER'`,
version is 0, specs count equals the number of materials added, and
specs offset equals the size of the header — the header being **24**
bytes in total (`sizeof(ReadableArchive) = 4 + 4 + 8 + 8`), with the
spec records immediately following at offset 24. -/
theorem claim_C8_header_layout (mats : List WMaterial)
    (hcount : mats.length < 18446744073709551616) :
    extractU32 (serializeBytes mats) 0 = magicUBER ∧
      extractU32 (serializeBytes mats) 4 = 0 ∧
      extractU64 (serializeBytes mats) 8 = mats.length ∧
      extractU64 (serializeBytes mats) 16 = sizeofReadableArchive ∧
      sizeofReadableArchive = 24 ∧
      (serializeBytes mats).drop sizeofReadableArchive =
        ((buildSpecs (flaglistOffset mats) mats (filamatRegionOffset mats) 0).map
            specBytes).flatten ++
          ((buildFlags (nameRegionOffset mats) mats 0).map flagBytes).flatten ++
          nameRegionBytes mats ++ (mats.map (·.package)).flatten := by
  have hser : serializeBytes mats =
      u32le magicUBER ++ (u32le 0 ++ (u64le mats.length ++ (u64le sizeofReadableArchive ++
        (((buildSpecs (flaglistOffset mats) mats (filamatRegionOffset mats) 0).map
            specBytes).flatten ++
          (((buildFlags (nameRegionOffset mats) mats 0).map flagBytes).flatten ++
            (nameRegionBytes mats ++ (mats.map (·.package)).flatten)))))) := by
    simp [serializeBytes, headerBytes, archiveHeader, List.append_assoc]
  refine ⟨?_, ?_, ?_, ?_, rfl, ?_⟩
  · rw [hser, extractU32_u32le _ _ (by decide)]
  · rw [hser]
    have h4 : (4 : Nat) = (u32le magicUBER).length + 0 := by rw [u32le_length]
    rw [h4, extractU32_shift, extractU32_u32le _ _ (by decide)]
  · rw [hser]
    have h8 : (8 : Nat) = (u32le magicUBER).length + ((u32le 0).length + 0) := by
      rw [u32le_length, u32le_length]
    rw [h8, extractU64_shift, extractU64_shift, extractU64_u64le _ _ hcount]
  · rw [hser]
    have h16 : (16 : Nat) =
        (u32le magicUBER).length + ((u32le 0).length + ((u64le mats.length).length + 0)) := by
      rw [u32le_length, u32le_length, u64le_length]
    rw [h16, extractU64_shift, extractU64_shift, extractU64_shift,
      extractU64_u64le _ _ (by decide)]
  · rw [hser]
    rw [show u32le magicUBER ++ (u32le 0 ++ (u64le mats.length ++
      (u64le sizeofReadableArchive ++
        (((buildSpecs (flaglistOffset mats) mats (filamatRegionOffset mats) 0).map
            specBytes).flatten ++
          (((buildFlags (nameRegionOffset mats) mats 0).map flagBytes).flatten ++
            (nameRegionBytes mats ++ (mats.map (·.package)).flatten)))))) =
      (u32le magicUBER ++ (u32le 0 ++ (u64le mats.length ++ u64le sizeofReadableArchive))) ++
        (((buildSpecs (flaglistOffset mats) mats (filamatRegionOffset mats) 0).map
            specBytes).flatten ++
          (((buildFlags (nameRegionOffset mats) mats 0).map flagBytes).flatten ++
            (nameRegionBytes mats ++ (mats.map (·.package)).flatten))) from by
      simp [List.append_assoc]]
    rw [List.drop_left' (show (u32le magicUBER ++ (u32le 0 ++
        (u64le mats.length ++ u64le sizeofReadableArchive))).length = sizeofReadableArchive
      from by simp [u32le, u64le, sizeofReadableArchive])]
    simp [List.append_assoc]

/-- Witness for the amended C8 at a concrete one-material archive. -/
theorem claim_C8_header_layout_witness :
    extractU32 (serializeBytes [⟨"B", [1, 2], BlendingMode.INVALID, Shading.INVALID, []⟩]) 0 =
        magicUBER ∧
      extractU64 (serializeBytes [⟨"B", [1, 2], BlendingMode.INVALID, Shading.INVALID, []⟩]) 8 =
        1 := by
  have h := claim_C8_header_layout
    [⟨"B", [1, 2], BlendingMode.INVALID, Shading.INVALID, []⟩] (by decide)
  exact ⟨h.1, h.2.2.1⟩

/-- **C9.** For every archive produced by the writer's `serialize`, the
offsets checked by the reader's relocation pass satisfy the alignment
assertions: `specsOffset % 8 == 0` and every spec's
`flagsOffset % 8 == 0` — so `convertOffsetsToPointers`'s
`assert_invariant`s never fire on writer-produced archives. -/
theorem claim_C9_offsets_aligned (mats : List WMaterial) :
    convertOffsetsChecks (archiveHeader mats).specsOffset
      (buildSpecs (flaglistOffset mats) mats (filamatRegionOffset mats) 0) = true := by
  unfold convertOffsetsChecks
  have h8 : flaglistOffset mats % 8 = 0 := by
    unfold flaglistOffset sizeofReadableArchive sizeofArchiveSpec
    omega
  rw [buildSpecs_flagsOffset_aligned (flaglistOffset mats) h8]
  simp [archiveHeader, sizeofReadableArchive]

/-! ### Helper lemmas about the rewriter -/

/-- When no record matches the key, the replace pass is the identity. -/
theorem replaceMatching_no_match (m v s : Nat) (src : String) :
    ∀ records : List ShaderIndex.TextRecord,
      (records.all fun r => ¬(r.model = m ∧ r.variant = v ∧ r.stage = s)) = true →
        ShaderIndex.replaceMatching records m v s src = records := by
  intro records
  induction records with
  | nil => intro _; rfl
  | cons r rest ih =>
    intro hall
    rw [List.all_cons, Bool.and_eq_true] at hall
    have hr : ¬(r.model = m ∧ r.variant = v ∧ r.stage = s) := by
      have h1 := hall.1
      rw [decide_eq_true_eq] at h1
      exact h1
    rw [ShaderIndex.replaceMatching, if_neg hr, ih hall.2]

/-- Once the material and dictionary chunks are present, the text
rewrite always returns an edited package: the errors of the re-encode
are only logged and the error component is discarded. -/
theorem replaceShaderSource_isSome (dictTag matTag : Nat) (chunks : List Chunk)
    (stringLines : List String) (records : List ShaderIndex.TextRecord)
    (m v s : Nat) (src : String)
    (hmat : (chunks.any fun c => c.tag = matTag) = true)
    (hdict : (chunks.any fun c => c.tag = dictTag) = true) :
    (replaceShaderSource dictTag matTag chunks stringLines records m v s src).isSome
      = true := by
  unfold replaceShaderSource
  rw [hmat, hdict]
  simp only [Bool.and_self, if_true]
  split <;> simp

/-- Once the chunks are present and the replacement source compiled,
the SPIR-V rewrite always returns an edited package. -/
theorem replaceSpirv_isSome (dictTag matTag : Nat) (chunks : List Chunk)
    (records : List BlobIndex.SpirvRecord) (dataBlobs : List (List Nat))
    (m v s : Nat) (bytes : List Nat)
    (hmat : (chunks.any fun c => c.tag = matTag) = true)
    (hdict : (chunks.any fun c => c.tag = dictTag) = true) :
    (replaceSpirv dictTag matTag chunks records dataBlobs m v s (some bytes)).isSome
      = true := by
  unfold replaceSpirv
  rw [hmat, hdict]
  simp only [Bool.and_self, if_true]
  split <;> simp

/-- When no SPIR-V record matches the key, the in-place replacement
loop leaves the blob list unchanged (the source only logs). -/
theorem blobReplaceShader_no_match (m v s : Nat) (src : List Nat) :
    ∀ (records : List BlobIndex.SpirvRecord) (dataBlobs : List (List Nat)),
      (records.all fun r => ¬(r.model = m ∧ r.variant = v ∧ r.stage = s)) = true →
        BlobIndex.replaceShader records dataBlobs m v s src = dataBlobs := by
  intro records
  induction records with
  | nil => intro _ _; rfl
  | cons r rest ih =>
    intro dataBlobs hall
    rw [List.all_cons, Bool.and_eq_true] at hall
    have hr : ¬(r.model = m ∧ r.variant = v ∧ r.stage = s) := by
      have h1 := hall.1
      rw [decide_eq_true_eq] at h1
      exact h1
    rw [BlobIndex.replaceShader, if_neg hr, ih dataBlobs hall.2]

/-- Emplacing the key `"a"` into a table already holding it is a no-op,
whatever index is offered. -/
theorem tableEmplace_aa (i : Nat) :
    ShaderIndex.tableEmplace [("a", 0)] "a" i = [("a", 0)] := by
  have hfind : ShaderIndex.tableFind [("a", 0)] "a" = some 0 := by decide
  rw [ShaderIndex.tableEmplace, hfind]
  rfl

/-- Seeding the table from a constant dictionary keeps only the first
occurrence. -/
theorem buildTableLoop_rep (n : Nat) :
    ∀ i : Nat,
      ShaderIndex.buildTableLoop (List.replicate n "a") i [("a", 0)] = [("a", 0)] := by
  induction n with
  | zero => intro i; rfl
  | succ k ih =>
    intro i
    rw [List.replicate_succ, ShaderIndex.buildTableLoop, tableEmplace_aa i]
    exact ih (i + 1)

/-- The seeded table of an all-`"a"` dictionary is the single binding. -/
theorem buildTable_rep (n : Nat) :
    ShaderIndex.buildTable (List.replicate (n + 1) "a") = [("a", 0)] := by
  rw [ShaderIndex.buildTable, List.replicate_succ, ShaderIndex.buildTableLoop,
    show ShaderIndex.tableEmplace [] "a" 0 = [("a", 0)] from by decide]
  exact buildTableLoop_rep n 1

/-- Decoding a one-index record against an all-`"a"` dictionary. -/
theorem decodeText_rep (n : Nat) :
    ShaderIndex.decodeText (List.replicate (n + 1) "a") ⟨1, 2, 3, 0, [0], "", 0⟩ =
      some "a\n" := by
  have hall : (([0] : List Nat).all fun i => i < (List.replicate (n + 1) "a").length)
      = true := by
    simp [List.length_replicate]
  simp only [ShaderIndex.decodeText, hall, if_true]
  rw [List.replicate_succ]
  rfl

/-- The decode phase on that one-record package. -/
theorem decodePhase_rep (n : Nat) :
    ShaderIndex.decodePhase (List.replicate (n + 1) "a") [⟨1, 2, 3, 0, [0], "", 0⟩] =
      ([⟨1, 2, 3, 0, [0], "a\n", 0⟩], none) := by
  rw [ShaderIndex.decodePhase, decodeText_rep n]
  rfl

/-- The re-encode of one record's lines can grow the dictionary only up
to 65536 entries (or leave an already larger one unchanged): every
insert is guarded by `index > UINT16_MAX`. -/
theorem encodeLines_stringLines_le (lines : List String) :
    ∀ st : ShaderIndex.EncodeState,
      (ShaderIndex.encodeLines st lines).1.stringLines.length ≤
        max st.stringLines.length 65536 := by
  induction lines with
  | nil => intro st; exact Nat.le_max_left _ _
  | cons line rest ih =>
    intro st
    rw [ShaderIndex.encodeLines]
    cases hf : ShaderIndex.tableFind st.table line with
    | some i =>
      simpa using ih st
    | none =>
      by_cases hidx : st.stringLines.length > 65535
      · simp only [if_pos hidx]
        exact Nat.le_max_left _ _
      · simp only [if_neg hidx]
        have h := ih { st with
          stringLines := st.stringLines ++ [line]
          table := ShaderIndex.tableEmplace st.table line st.stringLines.length }
        simp only [List.length_append, List.length_singleton] at h ⊢
        omega

/-- The record loop preserves the same dictionary-size bound. -/
theorem encodeRecords_stringLines_le (records : List ShaderIndex.TextRecord) :
    ∀ st : ShaderIndex.EncodeState,
      (ShaderIndex.encodeRecords st records).1.stringLines.length ≤
        max st.stringLines.length 65536 := by
  induction records with
  | nil => intro st; exact Nat.le_max_left _ _
  | cons r rest ih =>
    intro st
    rw [ShaderIndex.encodeRecords]
    have h1 := encodeLines_stringLines_le
      (ShaderIndex.splitLines r.decodedShaderText.data)
      { st with offset := st.offset + 4 + 4 }
    cases he : (ShaderIndex.encodeLines { st with offset := st.offset + 4 + 4 }
        (ShaderIndex.splitLines r.decodedShaderText.data)).2.2 with
    | some msg =>
      simp only [he]
      rw [he] at *
      simpa using h1
    | none =>
      simp only [he]
      have h2 := ih { (ShaderIndex.encodeLines { st with offset := st.offset + 4 + 4 }
          (ShaderIndex.splitLines r.decodedShaderText.data)).1 with
        offset := (ShaderIndex.encodeLines { st with offset := st.offset + 4 + 4 }
            (ShaderIndex.splitLines r.decodedShaderText.data)).1.offset +
          2 * (ShaderIndex.encodeLines { st with offset := st.offset + 4 + 4 }
            (ShaderIndex.splitLines r.decodedShaderText.data)).2.1.length }
      simp only at h1 h2 ⊢
      omega

/-! ### Claim theorems about the rewriter -/

/-- **C2 (code evaluated at the failing input).** Two records share blob
index 0 over the single blob `[1,1,1,1]`; replacing the first record
with `[2,2,2,2]` mutates the shared blob in place, so after the
consolidation pass of `writeChunks` the output dictionary holds a single
blob `[2,2,2,2]` and **both** records — including the untouched second
one — decode to the new bytes, not the original contents.  (The claim
expects two blobs with the second record still decoding `[1,1,1,1]`.) -/
theorem claim_C2_shared_blob_mutated :
    BlobIndex.replaceShader [⟨1,0,0,0⟩, ⟨1,0,1,0⟩] [[1,1,1,1]] 1 0 0 [2,2,2,2] =
        [[2,2,2,2]] ∧
      BlobIndex.writeChunksBlobs [⟨1,0,0,0⟩, ⟨1,0,1,0⟩]
          (BlobIndex.replaceShader [⟨1,0,0,0⟩, ⟨1,0,1,0⟩] [[1,1,1,1]] 1 0 0 [2,2,2,2]) =
        ([⟨1,0,0,0⟩, ⟨1,0,1,0⟩], [[2,2,2,2]]) ∧
      ([[2,2,2,2]] : List (List Nat)).getD 0 [] ≠ [1,1,1,1] := by
  refine ⟨by decide, by decide, by decide⟩

/-- **C3 (code evaluated at the failing input).** A well-formed package
whose final chunk is an unknown chunk (tag `0xDEADBEEF01020304`, payload
`[1,2,3]`): the rewrite succeeds but the passthrough chunk appears
**twice** in the output stream — the stale extra iteration of the clone
loop re-emits the last chunk — contradicting "exactly once". -/
theorem claim_C3_passthrough_duplicated :
    (replaceShaderSource 1 2
        [⟨1, [10]⟩, ⟨2, [20]⟩, ⟨0xDEADBEEF01020304, [1, 2, 3]⟩]
        ["a"] [⟨1, 0, 0, 15, [0], "", 0⟩] 1 0 0 "b\n").isSome = true ∧
      ((replaceShaderSource 1 2
          [⟨1, [10]⟩, ⟨2, [20]⟩, ⟨0xDEADBEEF01020304, [1, 2, 3]⟩]
          ["a"] [⟨1, 0, 0, 15, [0], "", 0⟩] 1 0 0 "b\n").getD []).count
        ⟨0xDEADBEEF01020304, [1, 2, 3]⟩ = 2 := by
  refine ⟨by decide, by decide⟩

/-- **C5 counterexample.** For a key `(9,9,9)` matching no record, the
rewrite does **not** fail: on the text path it returns an output
package, and on the SPIR-V path (replacement source compiled to
`[2,2,2,2]`) it also returns an output package — contradicting "fails
with NoSuchShader and produces no output package" on both cited paths. -/
theorem claim_C5_counterexample :
    (replaceShaderSource 1 2 [⟨1, [10]⟩, ⟨2, [20]⟩] ["a"]
        [⟨1, 0, 0, 15, [0], "", 0⟩] 9 9 9 "z\n").isSome = true ∧
      (replaceSpirv 1 2 [⟨1, [10]⟩, ⟨2, [20]⟩] [⟨1, 0, 0, 0⟩] [[1, 1, 1, 1]] 9 9 9
        (some [2, 2, 2, 2])).isSome = true := by
  refine ⟨by decide, by decide⟩

/-- **C5 (amended).** For every input package and every
`(model, variant, stage)` key matching no record, neither rewrite path
fails with NoSuchShader.  Text path: the replacement pass leaves the
record set unchanged and an output package is still produced.  SPIR-V
path: provided the replacement source compiles, the no-match loop
leaves the blob dictionary unchanged (the source only logs "Unable to
replace shader.") and an output package is still produced; a compile
failure, by contrast, aborts with no output *before* any record lookup,
independent of the key. -/
theorem claim_C5_no_match_still_succeeds :
    (∀ (dictTag matTag : Nat) (chunks : List Chunk) (stringLines : List String)
        (records : List ShaderIndex.TextRecord) (m v s : Nat) (src : String),
      (chunks.any fun c => c.tag = matTag) = true →
        (chunks.any fun c => c.tag = dictTag) = true →
          (records.all fun r => ¬(r.model = m ∧ r.variant = v ∧ r.stage = s)) = true →
            (replaceShaderSource dictTag matTag chunks stringLines records m v s src).isSome
                = true ∧
              ShaderIndex.replaceMatching records m v s src = records) ∧
      (∀ (dictTag matTag : Nat) (chunks : List Chunk)
          (records : List BlobIndex.SpirvRecord) (dataBlobs : List (List Nat))
          (m v s : Nat) (bytes : List Nat),
        (chunks.any fun c => c.tag = matTag) = true →
          (chunks.any fun c => c.tag = dictTag) = true →
            (records.all fun r => ¬(r.model = m ∧ r.variant = v ∧ r.stage = s)) = true →
              (replaceSpirv dictTag matTag chunks records dataBlobs m v s
                  (some bytes)).isSome = true ∧
                BlobIndex.replaceShader records dataBlobs m v s bytes = dataBlobs) ∧
      (∀ (dictTag matTag : Nat) (chunks : List Chunk)
          (records : List BlobIndex.SpirvRecord) (dataBlobs : List (List Nat))
          (m v s : Nat),
        replaceSpirv dictTag matTag chunks records dataBlobs m v s none = none) := by
  refine ⟨?_, ?_, ?_⟩
  · intro dictTag matTag chunks stringLines records m v s src hmat hdict hnone
    exact ⟨replaceShaderSource_isSome dictTag matTag chunks stringLines records
        m v s src hmat hdict,
      replaceMatching_no_match m v s src records hnone⟩
  · intro dictTag matTag chunks records dataBlobs m v s bytes hmat hdict hnone
    exact ⟨replaceSpirv_isSome dictTag matTag chunks records dataBlobs m v s bytes
        hmat hdict,
      blobReplaceShader_no_match m v s bytes records dataBlobs hnone⟩
  · intro dictTag matTag chunks records dataBlobs m v s
    unfold replaceSpirv
    split <;> rfl

/-- Witness for the amended C5 at concrete no-match inputs on both
paths. -/
theorem claim_C5_no_match_still_succeeds_witness :
    ((replaceShaderSource 1 2 [⟨1, [10]⟩, ⟨2, [20]⟩] ["a"]
        [⟨1, 0, 0, 15, [0], "", 0⟩] 9 9 9 "z\n").isSome = true ∧
      ShaderIndex.replaceMatching [⟨1, 0, 0, 15, [0], "", 0⟩] 9 9 9 "z\n" =
        [⟨1, 0, 0, 15, [0], "", 0⟩]) ∧
      ((replaceSpirv 1 2 [⟨1, [10]⟩, ⟨2, [20]⟩] [⟨1, 0, 0, 0⟩] [[1, 1, 1, 1]] 9 9 9
          (some [2, 2, 2, 2])).isSome = true ∧
        BlobIndex.replaceShader [⟨1, 0, 0, 0⟩] [[1, 1, 1, 1]] 9 9 9 [2, 2, 2, 2] =
          [[1, 1, 1, 1]]) :=
  ⟨claim_C5_no_match_still_succeeds.1 1 2 [⟨1, [10]⟩, ⟨2, [20]⟩] ["a"]
      [⟨1, 0, 0, 15, [0], "", 0⟩] 9 9 9 "z\n" (by decide) (by decide) (by decide),
    claim_C5_no_match_still_succeeds.2.1 1 2 [⟨1, [10]⟩, ⟨2, [20]⟩] [⟨1, 0, 0, 0⟩]
      [[1, 1, 1, 1]] 9 9 9 [2, 2, 2, 2] (by decide) (by decide) (by decide)⟩

/-- **C7 counterexample.** Two scenarios refute the claim.  (1) The
count bound is off by one: starting from a dictionary of 65535 lines,
re-encoding a record whose replacement text contains one fresh line
**succeeds** (the guard only fires for an index strictly above
`UINT16_MAX`) and leaves a dictionary of 65536 lines.  (2) When the
overflow does occur (dictionary already at 65536 lines), the encode
reports the too-many-codelines error, yet the rewrite operation does
not fail and does not leave its output unchanged: it still returns an
edited package built from the partially re-encoded state. -/
theorem claim_C7_counterexample :
    ((ShaderIndex.replaceShader [⟨1, 2, 3, 0, [0], "", 0⟩]
        (List.replicate 65535 "a") 1 2 3 "x\n").2.2 = none ∧
      (ShaderIndex.replaceShader [⟨1, 2, 3, 0, [0], "", 0⟩]
        (List.replicate 65535 "a") 1 2 3 "x\n").2.1.length = 65536) ∧
      (ShaderIndex.replaceShader [⟨1, 2, 3, 0, [0], "", 0⟩]
          (List.replicate 65536 "a") 1 2 3 "x\n").2.2 =
        some "too many unique codelines" ∧
      (replaceShaderSource 1 2 [⟨1, [10]⟩, ⟨2, [20]⟩] (List.replicate 65536 "a")
        [⟨1, 2, 3, 0, [0], "", 0⟩] 1 2 3 "x\n").isSome = true := by
  have e1 : (65534 + 1 : Nat) = 65535 := rfl
  have e2 : (65535 + 1 : Nat) = 65536 := rfl
  have hlen1 : (List.replicate 65535 "a").length = 65535 :=
    List.length_replicate 65535 "a"
  have hlen2 : (List.replicate 65536 "a").length = 65536 :=
    List.length_replicate 65536 "a"
  have hdec1 := decodePhase_rep 65534
  rw [e1] at hdec1
  have hdec2 := decodePhase_rep 65535
  rw [e2] at hdec2
  have htbl1 := buildTable_rep 65534
  rw [e1] at htbl1
  have htbl2 := buildTable_rep 65535
  rw [e2] at htbl2
  have hrepl : ShaderIndex.replaceMatching [⟨1, 2, 3, 0, [0], "a\n", 0⟩] 1 2 3 "x\n" =
      [⟨1, 2, 3, 0, [0], "x\n", 0⟩] := by
    rw [ShaderIndex.replaceMatching, if_pos ⟨rfl, rfl, rfl⟩]
  have hf : ShaderIndex.tableFind [("a", 0)] "x" = none := by decide
  have hsplit : ShaderIndex.splitLines ("x\n" : String).data = ["x"] := by decide
  -- scenario 1: the insert at index 65535 succeeds
  have hel1 : ShaderIndex.encodeLines
      ⟨List.replicate 65535 "a", [("a", 0)], 15 + 4 + 4⟩ ["x"] =
      (⟨List.replicate 65535 "a" ++ ["x"], [("a", 0), ("x", 65535)], 15 + 4 + 4⟩,
        [65535], none) := by
    rw [ShaderIndex.encodeLines]
    simp only [hf, hlen1]
    rw [if_neg (by omega)]
    rw [show ShaderIndex.tableEmplace [("a", 0)] "x" 65535 = [("a", 0), ("x", 65535)]
      from by decide]
    rfl
  have her1 : ShaderIndex.encodeRecords ⟨List.replicate 65535 "a", [("a", 0)], 15⟩
      [⟨1, 2, 3, 0, [0], "x\n", 0⟩] =
      (⟨List.replicate 65535 "a" ++ ["x"], [("a", 0), ("x", 65535)], (15 + 4 + 4) + 2 * 1⟩,
        [⟨1, 2, 3, 15, [65535], "x\n", ("x\n" : String).length + 1⟩], none) := by
    rw [ShaderIndex.encodeRecords]
    simp only [hsplit, hel1]
    rfl
  have hfull1 : ShaderIndex.replaceShader [⟨1, 2, 3, 0, [0], "", 0⟩]
      (List.replicate 65535 "a") 1 2 3 "x\n" =
      ([⟨1, 2, 3, 15, [65535], "x\n", ("x\n" : String).length + 1⟩],
        List.replicate 65535 "a" ++ ["x"], none) := by
    rw [ShaderIndex.replaceShader, hdec1]
    simp only [hrepl, htbl1, List.length_singleton]
    rw [show (8 + 1 * 7 : Nat) = 15 from rfl, her1]
  -- scenario 2: the insert at index 65536 errors, yet the pipeline succeeds
  have hel2 : ShaderIndex.encodeLines
      ⟨List.replicate 65536 "a", [("a", 0)], 15 + 4 + 4⟩ ["x"] =
      (⟨List.replicate 65536 "a", [("a", 0)], 15 + 4 + 4⟩, [],
        some "too many unique codelines") := by
    rw [ShaderIndex.encodeLines]
    simp only [hf, hlen2]
    rw [if_pos (by omega)]
  have her2 : ShaderIndex.encodeRecords ⟨List.replicate 65536 "a", [("a", 0)], 15⟩
      [⟨1, 2, 3, 0, [0], "x\n", 0⟩] =
      (⟨List.replicate 65536 "a", [("a", 0)], 15 + 4 + 4⟩,
        [⟨1, 2, 3, 15, [], "x\n", ("x\n" : String).length + 1⟩],
        some "too many unique codelines") := by
    rw [ShaderIndex.encodeRecords]
    simp only [hsplit, hel2]
  have hfull2 : ShaderIndex.replaceShader [⟨1, 2, 3, 0, [0], "", 0⟩]
      (List.replicate 65536 "a") 1 2 3 "x\n" =
      ([⟨1, 2, 3, 15, [], "x\n", ("x\n" : String).length + 1⟩],
        List.replicate 65536 "a", some "too many unique codelines") := by
    rw [ShaderIndex.replaceShader, hdec2]
    simp only [hrepl, htbl2, List.length_singleton]
    rw [show (8 + 1 * 7 : Nat) = 15 from rfl, her2]
  refine ⟨⟨?_, ?_⟩, ?_, ?_⟩
  · rw [hfull1]
  · rw [hfull1]
    rw [List.length_append, hlen1]
    rfl
  · rw [hfull2]
  · exact replaceShaderSource_isSome 1 2 [⟨1, [10]⟩, ⟨2, [20]⟩]
      (List.replicate 65536 "a") [⟨1, 2, 3, 0, [0], "", 0⟩] 1 2 3 "x\n"
      (by decide) (by decide)

/-- **C7 (amended).** During text re-encoding, inserting a line that
would require a dictionary index **greater than** 65535 aborts the
re-encode with the too-many-codelines error, but the error is only
logged: the rewrite operation does not fail and does not leave its
output unchanged — once the material and dictionary chunks are present
it always reports success and emits a package (on the error path, built
from the partially re-encoded state; the original input buffer is never
modified).  Newly inserted lines always get indices ≤ 65535, and the
string dictionary's count after any encode never exceeds
`max (input count) 65536` — in particular it can reach 65536, one more
than the claim's bound. -/
theorem claim_C7_line_index_cap :
    (∀ (st : ShaderIndex.EncodeState) (line : String) (rest : List String),
      ShaderIndex.tableFind st.table line = none →
        st.stringLines.length > 65535 →
          (ShaderIndex.encodeLines st (line :: rest)).2.2 =
            some "too many unique codelines") ∧
      (∀ (records : List ShaderIndex.TextRecord) (stringLines : List String)
          (m v s : Nat) (src : String),
        (ShaderIndex.replaceShader records stringLines m v s src).2.1.length ≤
          max stringLines.length 65536) ∧
      (∀ (dictTag matTag : Nat) (chunks : List Chunk) (stringLines : List String)
          (records : List ShaderIndex.TextRecord) (m v s : Nat) (src : String),
        (chunks.any fun c => c.tag = matTag) = true →
          (chunks.any fun c => c.tag = dictTag) = true →
            (replaceShaderSource dictTag matTag chunks stringLines records
                m v s src).isSome = true) := by
  refine ⟨?_, ?_, ?_⟩
  · intro st line rest hfind hlen
    rw [ShaderIndex.encodeLines]
    simp only [hfind, if_pos hlen]
  · intro records stringLines m v s src
    rw [ShaderIndex.replaceShader]
    cases hd : (ShaderIndex.decodePhase stringLines records).2 with
    | some err =>
      simp only [hd]
      exact Nat.le_max_left _ _
    | none =>
      simp only [hd]
      exact encodeRecords_stringLines_le _ _
  · intro dictTag matTag chunks stringLines records m v s src hmat hdict
    exact replaceShaderSource_isSome dictTag matTag chunks stringLines records
      m v s src hmat hdict

/-- Witness for the amended C7: the overflow error fires on a full
dictionary, the bound holds at a concrete encode, and the rewrite still
succeeds on a concrete package. -/
theorem claim_C7_line_index_cap_witness :
    (ShaderIndex.encodeLines ⟨List.replicate 65536 "a", [("a", 0)], 0⟩ ["y"]).2.2 =
        some "too many unique codelines" ∧
      (ShaderIndex.replaceShader [] [] 0 0 0 "").2.1.length ≤
        max ([] : List String).length 65536 ∧
      (replaceShaderSource 1 2 [⟨1, [10]⟩, ⟨2, [20]⟩] ["a"] [] 0 0 0 "").isSome = true :=
  ⟨claim_C7_line_index_cap.1 ⟨List.replicate 65536 "a", [("a", 0)], 0⟩ "y" []
      (by decide) (by simp only [List.length_replicate]; omega),
    claim_C7_line_index_cap.2.1 [] [] 0 0 0 "",
    claim_C7_line_index_cap.2.2 1 2 [⟨1, [10]⟩, ⟨2, [20]⟩] ["a"] [] 0 0 0 ""
      (by decide) (by decide)⟩

end Filament
